import Mathlib

/-!
Verification development for the Novatale novel-generation pipeline
(`data_models.py`, `agents.py`, `graph.py`).

The Python run state (a `TypedDict` threaded through every LangGraph node) is
embedded as the structure `GraphState`; each graph node function becomes a Lean
function `GraphState → GraphState`.  External LLM calls are modelled by oracle
values: each agent node takes the outcome the external text-completion call
would have produced (success payload, or the exception text) and computes the
next state exactly as the Python code does downstream of the call.  The graph
wiring of `graph.py` (conditional edges driven by `check_agent_error` and
`scene_loop_condition`) becomes the step function `stepGraph`, iterated by a
fuel-indexed trace.

Modelling conventions:
* Python truthiness of optional strings (`if state.get("error")`) is
  `isTruthyStr` (absent or empty string are falsy, like Python's `None`/`""`).
* All `GraphState` keys are modelled as present (the code reads every key
  through `state.get(...)` with the corresponding default, so an absent key and
  its default value are indistinguishable to every node).
* Text processing (strip, lower, split, substring search) is implemented over
  `List Char` with the same semantics as the Python `str` methods for the ASCII
  texts involved.
* JSON bracket extraction and `json.loads` act on external text and are
  collapsed into the oracle outcome; everything from the parsed JSON value
  onwards (alias repair, pydantic validation, empty-list checks) is embedded.
-/

/-- Python truthiness of an optional string: `None` and `""` are falsy. -/
def isTruthyStr : Option String → Bool
  | none => false
  | some s => decide (s ≠ "")

/-- Python `a or b` on optional strings (used for `raw_output or state.get(...)`). -/
def pyOrOpt (a b : Option String) : Option String :=
  if isTruthyStr a then a else b

/-- Python `a if a else b` for a string `a` (used for `llm_output_str if llm_output_str else ...`). -/
def pyOrStr (a b : String) : String :=
  if a = "" then b else a

/-- Drop leading whitespace characters (Python `\s*` / left part of `str.strip()`). -/
def dropWs (l : List Char) : List Char :=
  l.dropWhile Char.isWhitespace

/-- Trim whitespace at both ends (Python `str.strip()`; the texts involved are ASCII). -/
def trimChars (l : List Char) : List Char :=
  dropWs (dropWs l.reverse).reverse

/-- Python `str.strip()` lifted to `String`. -/
def trimS (s : String) : String :=
  String.mk (trimChars s.data)

/-- Python `str.lower()` (ASCII lowering, which covers all label texts involved). -/
def lowerS (s : String) : String :=
  String.mk (s.data.map Char.toLower)

/-- Split a character list at every occurrence of `sep`, Python `str.split(sep)` style
(no collapsing of empty segments; the empty input yields one empty segment). -/
def splitOnCharL (sep : Char) : List Char → List (List Char)
  | [] => [[]]
  | c :: cs =>
    match splitOnCharL sep cs with
    | [] => if c = sep then [[], []] else [[c]]
    | h :: t => if c = sep then [] :: h :: t else (c :: h) :: t

/-- Python `s.split(';')`. -/
def splitSemiS (s : String) : List String :=
  (splitOnCharL ';' s.data).map String.mk

/-- The lines of a text, Python `s.split('\n')` (used to model line-anchored
`re.MULTILINE` scanning of the character-profile text). -/
def splitLinesS (s : String) : List String :=
  (splitOnCharL '\n' s.data).map String.mk

/-- Python `' '.join(parts)`. -/
def joinSpace : List String → String
  | [] => ""
  | [x] => x
  | x :: y :: xs => x ++ " " ++ joinSpace (y :: xs)

/-- Does the first list start with the second one (character-wise)? -/
def startsWithL : List Char → List Char → Bool
  | _, [] => true
  | [], _ :: _ => false
  | a :: as, b :: bs => a == b && startsWithL as bs

/-- Python `sub in hay` substring test. -/
def containsSubL : List Char → List Char → Bool
  | [], sub => startsWithL [] sub
  | hay@(_ :: rest), sub => startsWithL hay sub || containsSubL rest sub

/-- Substring test on strings (Python `"..." in text`). -/
def containsSub (hay sub : String) : Bool :=
  containsSubL hay.data sub.data

-- ------------------------------------------------------------------
-- Data model (`data_models.py`)
-- ------------------------------------------------------------------

/-- Embedding of `data_models.Location`. -/
structure Location where
  name : String
  description : String
deriving DecidableEq, Repr

/-- Embedding of `data_models.WorldDetails`. -/
structure WorldDetails where
  overall_tone : Option String := none
  key_locations : List Location := []
  core_rules : List String := []
  history_snippet : String := ""
deriving DecidableEq, Repr

/-- Embedding of `data_models.CharacterProfile`. -/
structure CharacterProfile where
  name : String
  description : String
  backstory : String
  core_motivation : String
  fears : Option (List String) := none
deriving DecidableEq, Repr

/-- Embedding of `data_models.ChapterOutlineItem`: optional `title` and a required `summary`
(populated from the JSON key `description`, its pydantic alias). -/
structure ChapterOutlineItem where
  title : Option String := none
  summary : String
deriving DecidableEq, Repr

/-- Embedding of `data_models.SceneOutlineItem`: every field optional; `summary` is aliased
`scene_summary` and `scene_setting` is aliased `location` in the JSON input. -/
structure SceneOutlineItem where
  title : Option String := none
  summary : Option String := none
  scene_setting : Option String := none
  characters : Option (List String) := none
  plot_points : Option (List String) := none
deriving DecidableEq, Repr

/-- Embedding of `data_models.CharacterDynamicState`: a string-keyed mapping of free-form
attributes, modelled as an association list. -/
def CharacterDynamicState := List (String × String)
deriving DecidableEq, Repr

/-- Embedding of `data_models.AllCharacterStates`: mapping from character name to dynamic state. -/
def AllCharacterStates := List (String × CharacterDynamicState)
deriving DecidableEq, Repr

/-- Python truthiness of the optional character-state mapping (`not char_states`):
`None` and the empty mapping are falsy. -/
def isTruthyStates : Option AllCharacterStates → Bool
  | none => false
  | some m => decide (m ≠ ([] : List (String × CharacterDynamicState)))

/-- Embedding of `data_models.GraphState`, the run state threaded through every node. -/
structure GraphState where
  user_world_concept : Option String := none
  user_character_concept : Option String := none
  user_story_premise : Option String := none
  world_details : Option WorldDetails := none
  character_profile : Option CharacterProfile := none
  overall_plot_outline : Option (List ChapterOutlineItem) := none
  current_chapter_index : Nat := 0
  current_chapter_summary : Option String := none
  chapter_scene_outline : Option (List SceneOutlineItem) := none
  current_scene_index : Nat := 0
  current_scene_goal : Option String := none
  current_scene_prose : Option String := none
  completed_chapter_prose : List String := []
  character_states : Option AllCharacterStates := none
  consistency_notes : Option (List String) := none
  error : Option String := none
  debug_llm_output : Option String := none
deriving DecidableEq, Repr

-- ------------------------------------------------------------------
-- Character-profile label parsing (`agents.character_bible_agent_node`)
-- ------------------------------------------------------------------

/-- Strip an opening or closing `**` (the optional `(?:\*\*)?` of the label regex). -/
def dropBold : List Char → List Char
  | '*' :: '*' :: rest => rest
  | l => l

/-- Match a label case-insensitively at the head of a character list; on success
return the remainder (the `{re.escape(label)}` part of the regex with `re.IGNORECASE`). -/
def stripLabelCI : List Char → List Char → Option (List Char)
  | [], rest => some rest
  | _ :: _, [] => none
  | a :: as, b :: bs =>
    if a.toLower = b.toLower then stripLabelCI as bs else none

/-- Match one line against the label regex
`^\s*(?:\*\*)?LABEL(?:\*\*)?\s*:\s*(.*)` and return the captured value after the
Python `.strip()` applied to `match.group(1)`.  The source searches the whole
text with `re.MULTILINE`, which anchors candidate matches at line starts; this
embedding scans the individual lines, which yields the same captured value
whenever no label's colon is followed only by whitespace to the end of its line. -/
def matchLabelLine (label : String) (line : String) : Option String :=
  let l := dropBold (dropWs line.data)
  match stripLabelCI label.data l with
  | none => none
  | some rest =>
    match dropWs (dropBold rest) with
    | ':' :: tail => some (String.mk (trimChars tail))
    | _ => none

/-- First line carrying the label, as `re.search` over the multiline text finds
the earliest match (`parsed_data[label.lower()]` in the source). -/
def findLabel (lines : List String) (label : String) : Option String :=
  lines.findSome? (matchLabelLine label)

/-- Fears post-processing of `character_bible_agent_node`: a stripped value equal
to `none` in any letter case is stored as `None`; otherwise the value is split on
`;`, each part stripped, and parts that strip to the empty string are dropped
(`[fear.strip() for fear in fears_str.split(';') if fear.strip()]`). -/
def parseFearsValue (v : String) : Option (List String) :=
  if lowerS v = "none" then none
  else some (((splitSemiS v).map trimS).filter (fun e => e ≠ ""))

/-- The parsed `fears` field: absent label gives `None` (a warning only). -/
def parseProfileFears (lines : List String) : Option (List String) :=
  match findLabel lines "Fears" with
  | none => none
  | some v => parseFearsValue v

/-- Assemble and validate the profile as `CharacterProfile(**profile_data)` does:
pydantic rejects the record iff any of the four required string fields is `None`. -/
def parseCharacterProfile (lines : List String) : Option CharacterProfile :=
  match findLabel lines "Name", findLabel lines "Description",
        findLabel lines "Backstory", findLabel lines "Motivation" with
  | some n, some d, some b, some m =>
    some { name := n, description := d, backstory := b, core_motivation := m,
           fears := parseProfileFears lines }
  | _, _, _, _ => none

-- ------------------------------------------------------------------
-- Chapter-outline normalization (`agents.overall_plot_agent_node`)
-- ------------------------------------------------------------------

/-- One JSON object of the parsed chapter-outline list, restricted to the keys
the code inspects; `none` models an absent key.  `summary` is the unaliased key
(a pydantic extra field for `ChapterOutlineItem`, which populates its `summary`
field only through the alias `description`); non-list `plot_points` values and
non-string summaries are outside the modelled input space. -/
structure RawChapterItem where
  title : Option String := none
  description : Option String := none
  summary : Option String := none
  plot_points : Option (List String) := none
deriving DecidableEq, Repr

/-- The pre-processing step: synthesize `description` from `plot_points` when the
item has no `description` key but has a `plot_points` list. -/
def preprocessChapterItem (item : RawChapterItem) : RawChapterItem :=
  match item.description, item.plot_points with
  | none, some pts => { item with description := some (joinSpace pts) }
  | _, _ => item

/-- Embedding of `ChapterOutlineItem(**item)`: succeeds iff the `description` key (the alias of
the required `summary` field) is present; `title` populates `title`; every other
key is an ignored extra. -/
def validateChapterItem (item : RawChapterItem) : Option ChapterOutlineItem :=
  match item.description with
  | some d => some { title := item.title, summary := d }
  | none => none

/-- The list comprehension `[ChapterOutlineItem(**item) for item in parsed_output]`:
the first validation error aborts the whole batch. -/
def validateChapterItems : List RawChapterItem → Option (List ChapterOutlineItem)
  | [] => some []
  | it :: rest =>
    match validateChapterItem it, validateChapterItems rest with
    | some v, some vs => some (v :: vs)
    | _, _ => none

/-- Pre-process then validate the parsed chapter list, with the source's two
failure modes (a pydantic `ValidationError`, or the `ValueError` raised on an
empty validated list). -/
def normalizeChapterOutline (items : List RawChapterItem) :
    Except String (List ChapterOutlineItem) :=
  match validateChapterItems (items.map preprocessChapterItem) with
  | none => .error "Overall Plot Agent Error (ValidationError): Failed to extract/parse/validate List[ChapterOutlineItem]."
  | some outline =>
    if outline.isEmpty then
      .error "Overall Plot Agent Error (ValueError): Failed to extract/parse/validate List[ChapterOutlineItem]. Outline generation resulted in empty list after validation."
    else .ok outline

-- ------------------------------------------------------------------
-- Scene-outline normalization (`agents.chapter_planner_agent_node`)
-- ------------------------------------------------------------------

/-- One JSON object of the parsed scene-outline list, restricted to the keys the
code inspects (`none` models an absent key). -/
structure RawSceneItem where
  title : Option String := none
  scene_title : Option String := none
  scene_summary : Option String := none
  scene_goal : Option String := none
  description : Option String := none
  summary : Option String := none
  location : Option String := none
  scene_setting : Option String := none
  characters : Option (List String) := none
  plot_points : Option (List String) := none
deriving DecidableEq, Repr

/-- The pre-processing step of `chapter_planner_agent_node`: map
`scene_goal`/`description`/`plot_points` onto a missing `scene_summary`, and
`title` onto a missing `scene_title`. -/
def preprocessSceneItem (it : RawSceneItem) : RawSceneItem :=
  let it1 :=
    match it.scene_summary with
    | some _ => it
    | none =>
      match it.scene_goal with
      | some g => { it with scene_summary := some g }
      | none =>
        match it.description with
        | some d => { it with scene_summary := some d }
        | none =>
          match it.plot_points with
          | some pts => { it with scene_summary := some (joinSpace pts) }
          | none => it
  match it1.scene_title, it1.title with
  | none, some t => { it1 with scene_title := some t }
  | _, _ => it1

/-- Embedding of `SceneOutlineItem(**item)`: all fields optional, so validation always
succeeds; `summary` is populated from the alias `scene_summary` first and the
field name `summary` second (`allow_population_by_field_name`), likewise
`scene_setting` from `location` then `scene_setting`; `scene_title` stays an
ignored extra key. -/
def validateSceneItem (it : RawSceneItem) : SceneOutlineItem :=
  { title := it.title
    summary := match it.scene_summary with | some v => some v | none => it.summary
    scene_setting := match it.location with | some v => some v | none => it.scene_setting
    characters := it.characters
    plot_points := it.plot_points }

-- ------------------------------------------------------------------
-- Oracle outcomes for the external LLM calls
-- ------------------------------------------------------------------

/-- Outcome of the World-Bible structured completion: the validated
`WorldDetails`, or the exception text (with the raw debug output, if the
follow-up raw retrieval succeeded). -/
inductive WorldOutcome where
  | ok (wd : WorldDetails)
  | fail (e : String) (raw : Option String)
deriving Repr

/-- Outcome of a free-text completion: the returned text, or the exception text
when `chain.invoke` itself raised (leaving `llm_output_str` empty). -/
inductive TextOutcome where
  | ok (text : String)
  | fail (e : String)
deriving Repr

/-- Outcome of a JSON-list-producing completion, with the bracket extraction and
`json.loads` of the raw text collapsed into the constructors:
`invokeFail` = the call raised, `noArray` = no `[...]` in the text,
`badJson` = the extracted substring failed to parse, `parsed` = a JSON list of
objects (restricted to the modelled keys). -/
inductive JsonListOutcome (α : Type) where
  | invokeFail (e : String)
  | noArray (raw : String)
  | badJson (e : String) (raw : String)
  | parsed (items : List α) (raw : String)
deriving Repr

/-- Outcome of one scene-prose completion. -/
inductive SceneOutcome where
  | ok (prose : String)
  | fail (e : String)
deriving Repr

/-- All external interactions of one graph invocation: the three `input()`
answers of the fresh-input branch and one outcome per LLM-calling node (the
scene generator's outcomes are indexed by the scene index current at the call). -/
structure Oracles where
  inputWorld : String
  inputChar : String
  inputPremise : String
  world : WorldOutcome
  character : TextOutcome
  plot : JsonListOutcome RawChapterItem
  planner : JsonListOutcome RawSceneItem
  scene : Nat → SceneOutcome

-- ------------------------------------------------------------------
-- Agent node functions (`agents.py`, `graph.py`)
-- ------------------------------------------------------------------

/-- Embedding of `agents.get_user_input`: if the three user concepts are already truthy the
state passes through (the `setdefault` calls only fill keys modelled as always
present); otherwise the state is rebuilt from the three interactive answers with
every generated field reset. -/
def get_user_input (oc : Oracles) (state : GraphState) : GraphState :=
  if isTruthyStr state.user_world_concept && isTruthyStr state.user_character_concept
      && isTruthyStr state.user_story_premise then
    state
  else
    { user_world_concept := some oc.inputWorld
      user_character_concept := some oc.inputChar
      user_story_premise := some oc.inputPremise
      world_details := none
      character_profile := none
      overall_plot_outline := none
      current_chapter_index := 0
      current_chapter_summary := none
      chapter_scene_outline := none
      current_scene_index := 0
      current_scene_goal := none
      current_scene_prose := none
      completed_chapter_prose := []
      character_states := none
      consistency_notes := none
      error := none
      debug_llm_output := none }

/-- Embedding of `agents.world_bible_agent_node`. -/
def world_bible_agent_node (oc : WorldOutcome) (state : GraphState) : GraphState :=
  if state.world_details.isSome then state
  else if !(isTruthyStr state.user_world_concept) then
    { state with error := some "User world concept missing." }
  else
    match oc with
    | .ok wd => { state with world_details := some wd, error := none }
    | .fail e raw =>
      { state with error := some ("World Bible Agent Error " ++ e)
                   world_details := none
                   debug_llm_output := pyOrOpt raw state.debug_llm_output }

/-- Error message of the character-profile parse failure (a pydantic
`ValidationError` on the assembled record). -/
def charBibleParseErrorMsg : String :=
  "Character Bible Agent Error (ValidationError): Failed to generate/parse character profile text."

/-- Embedding of `agents.character_bible_agent_node` (manual label parsing); the oracle is the
raw text of the free-form completion. -/
def character_bible_agent_node (oc : TextOutcome) (state : GraphState) : GraphState :=
  if state.character_profile.isSome then state
  else if !(isTruthyStr state.user_character_concept) then
    { state with error := some "User character concept missing." }
  else
    match oc with
    | .fail e =>
      { state with error := some ("Character Bible Agent Error " ++ e)
                   character_profile := none
                   character_states := none
                   debug_llm_output := some "Could not retrieve raw LLM output." }
    | .ok text =>
      match parseCharacterProfile (splitLinesS text) with
      | some prof =>
        { state with character_profile := some prof
                     character_states :=
                       some [(prof.name, [("mood", "neutral"), ("location", "Unknown")])]
                     error := none }
      | none =>
        { state with error := some charBibleParseErrorMsg
                     character_profile := none
                     character_states := none
                     debug_llm_output := some (pyOrStr text "Could not retrieve raw LLM output.") }

/-- Error message for a raw plot text with no JSON list brackets. -/
def plotNoArrayMsg : String :=
  "Overall Plot Agent Error (OutputParserException): Failed to extract/parse/validate List[ChapterOutlineItem]. Could not find JSON list structure in LLM output."

/-- Embedding of `agents.overall_plot_agent_node`. -/
def overall_plot_agent_node (oc : JsonListOutcome RawChapterItem)
    (state : GraphState) : GraphState :=
  if state.overall_plot_outline.isSome then state
  else if !(isTruthyStr state.user_story_premise) || state.world_details.isNone
      || state.character_profile.isNone then
    { state with error := some "Missing data for plot generation." }
  else
    match oc with
    | .invokeFail e =>
      { state with error := some ("Overall Plot Agent Error " ++ e)
                   overall_plot_outline := none
                   debug_llm_output := some "Could not retrieve raw LLM output." }
    | .noArray raw =>
      { state with error := some plotNoArrayMsg
                   overall_plot_outline := none
                   debug_llm_output := some (pyOrStr raw "Could not retrieve raw LLM output.") }
    | .badJson e raw =>
      { state with error := some ("Overall Plot Agent Error " ++ e)
                   overall_plot_outline := none
                   debug_llm_output := some (pyOrStr raw "Could not retrieve raw LLM output.") }
    | .parsed items raw =>
      match normalizeChapterOutline items with
      | .ok outline =>
        { state with overall_plot_outline := some outline, error := none }
      | .error msg =>
        { state with error := some msg
                     overall_plot_outline := none
                     debug_llm_output := some (pyOrStr raw "Could not retrieve raw LLM output.") }

/-- Error message for a raw scene-outline text with no JSON list brackets. -/
def plannerNoArrayMsg : String :=
  "Chapter Planner Agent Error (OutputParserException): Failed to extract/parse/validate scene outline. Could not find JSON list structure in LLM output for scene outline."

/-- Error message for an empty validated scene outline. -/
def plannerEmptyMsg : String :=
  "Chapter Planner Agent Error (ValueError): Failed to extract/parse/validate scene outline. Scene outline generation resulted in empty list after validation."

/-- Embedding of `agents.chapter_planner_agent_node`. -/
def chapter_planner_agent_node (oc : JsonListOutcome RawSceneItem)
    (state : GraphState) : GraphState :=
  if state.chapter_scene_outline.isSome then state
  else if !(isTruthyStr state.current_chapter_summary) || state.world_details.isNone
      || state.character_profile.isNone then
    { state with error := some "Missing data for chapter planning." }
  else
    match oc with
    | .invokeFail e =>
      { state with error := some ("Chapter Planner Agent Error " ++ e)
                   chapter_scene_outline := none
                   debug_llm_output := some "Could not retrieve raw LLM output." }
    | .noArray raw =>
      { state with error := some plannerNoArrayMsg
                   chapter_scene_outline := none
                   debug_llm_output := some (pyOrStr raw "Could not retrieve raw LLM output.") }
    | .badJson e raw =>
      { state with error := some ("Chapter Planner Agent Error " ++ e)
                   chapter_scene_outline := none
                   debug_llm_output := some (pyOrStr raw "Could not retrieve raw LLM output.") }
    | .parsed items raw =>
      let outline := (items.map preprocessSceneItem).map validateSceneItem
      if outline.isEmpty then
        { state with error := some plannerEmptyMsg
                     chapter_scene_outline := none
                     debug_llm_output := some (pyOrStr raw "Could not retrieve raw LLM output.") }
      else
        { state with chapter_scene_outline := some outline, error := none }

/-- Error message of `graph.prepare_chapter_node` (the item repr of the f-string
is the formatted chapter index). -/
def prepareChapterErrMsg (idx : Nat) : String :=
  "Cannot prepare chapter: Invalid index (" ++ toString idx
    ++ ") or missing/invalid outline structure/summary."

/-- The guard of `graph.prepare_chapter_node`: the negation of its single failure
condition (`outline is None or ... or chapter_idx >= len(outline) or ... or not
outline[chapter_idx].summary`), yielding the indexed item on success. -/
def prepare_chapter_guard (state : GraphState) : Option ChapterOutlineItem :=
  match state.overall_plot_outline with
  | none => none
  | some outline =>
    match outline.get? state.current_chapter_index with
    | none => none
    | some item => if item.summary = "" then none else some item

/-- Embedding of `graph.prepare_chapter_node`. -/
def prepare_chapter_node (state : GraphState) : GraphState :=
  match prepare_chapter_guard state with
  | none => { state with error := some (prepareChapterErrMsg state.current_chapter_index) }
  | some item =>
    { state with current_chapter_summary := some item.summary
                 chapter_scene_outline := none
                 current_scene_index := 0
                 current_scene_goal := none
                 current_scene_prose := none
                 completed_chapter_prose := []
                 consistency_notes := none
                 error := none }

/-- Error message of an invalid scene index or missing scene outline. -/
def prepareSceneErrMsg (idx : Nat) : String :=
  "Cannot prepare scene: Invalid index (" ++ toString idx
    ++ ") or missing/invalid scene outline."

/-- Error message when no usable field yields a scene goal (the outline-item repr
appended by the f-string is elided). -/
def sceneGoalErrMsg (idx : Nat) : String :=
  "Cannot determine scene goal for Scene " ++ toString (idx + 1)
    ++ ". Missing usable fields (summary/plot_points/title/setting) in outline item."

/-- Python truthiness of an optional string list (`if scene_item.plot_points`):
`None` and the empty list are falsy. -/
def isTruthyList : Option (List String) → Bool
  | none => false
  | some xs => decide (xs ≠ [])

/-- The goal-derivation chain of `graph.prepare_scene_node`: summary if truthy,
else title-prefixed space-joined plot points if the list is truthy, else title,
else the setting sentence, else no goal. -/
def deriveSceneGoal (item : SceneOutlineItem) : Option String :=
  if isTruthyStr item.summary then item.summary
  else if isTruthyList item.plot_points then
    let goalParts :=
      (if isTruthyStr item.title then [(item.title.getD "") ++ ":"] else [])
        ++ item.plot_points.getD []
    some (joinSpace goalParts)
  else if isTruthyStr item.title then item.title
  else if isTruthyStr item.scene_setting then
    some ("Scene set in: " ++ item.scene_setting.getD "")
  else none

/-- Embedding of `graph.prepare_scene_node`. -/
def prepare_scene_node (state : GraphState) : GraphState :=
  let sceneIdx := state.current_scene_index
  match state.chapter_scene_outline with
  | none => { state with error := some (prepareSceneErrMsg sceneIdx) }
  | some outline =>
    match outline.get? sceneIdx with
    | none => { state with error := some (prepareSceneErrMsg sceneIdx) }
    | some item =>
      match deriveSceneGoal item with
      | some goal =>
        { state with current_scene_goal := some goal, current_scene_prose := none }
      | none => { state with error := some (sceneGoalErrMsg sceneIdx) }

/-- Error message of the `ValueError` raised on empty generated prose. -/
def sceneEmptyErrMsg : String :=
  "Scene Generator Agent Error (ValueError): LLM returned empty string for scene prose."

/-- Debug payload retained on a scene-generation failure; the f-string embeds the
system prompt, whose text is outside the modelled scope. -/
def sceneFailDebug : String :=
  "Failed during generation. Prompt System:"

/-- Embedding of `agents.scene_generator_agent_node`; the oracle is the outcome of the prose
completion (the context-preparation block only slices strings and cannot raise
for the modelled state space). -/
def scene_generator_agent_node (oc : SceneOutcome) (state : GraphState) : GraphState :=
  if !(isTruthyStr state.current_scene_goal) || state.world_details.isNone
      || state.character_profile.isNone || !(isTruthyStates state.character_states) then
    { state with error := some "Missing required context (scene goal, world, character profile/state) for scene generation." }
  else
    match oc with
    | .ok prose =>
      let g := trimS prose
      if g = "" then
        { state with error := some sceneEmptyErrMsg
                     current_scene_prose := none
                     debug_llm_output := some sceneFailDebug }
      else
        { state with current_scene_prose := some g, error := none }
    | .fail e =>
      { state with error := some ("Scene Generator Agent Error " ++ e)
                   current_scene_prose := none
                   debug_llm_output := some sceneFailDebug }

/-- Embedding of `agents.consistency_checker_agent_node` (placeholder, never sets `error`). -/
def consistency_checker_agent_node (state : GraphState) : GraphState :=
  let notes :=
    match state.current_scene_prose with
    | some p =>
      if containsSub (lowerS p) "placeholder contradiction" then
        ["Placeholder contradiction noted in Scene "
          ++ toString (state.current_scene_index + 1) ++ "."]
      else []
    | none => []
  { state with consistency_notes := some notes }

/-- Embedding of `agents.character_state_update_agent_node` (placeholder pass-through): skip
without touching the state when prose, profile or a non-empty mapping is
missing; otherwise return the copied (hence equal) mapping and clear `error`. -/
def character_state_update_agent_node (state : GraphState) : GraphState :=
  let currentStates := state.character_states.getD []
  if !(isTruthyStr state.current_scene_prose) || state.character_profile.isNone
      || currentStates.isEmpty then
    state
  else
    { state with character_states := some currentStates, error := none }

/-- Embedding of `graph.accumulate_scene_node`: append truthy prose to the chapter list,
advance the scene index by one, clear the current prose. -/
def accumulate_scene_node (state : GraphState) : GraphState :=
  let newList :=
    match state.current_scene_prose with
    | some p => if p = "" then state.completed_chapter_prose
                else state.completed_chapter_prose ++ [p]
    | none => state.completed_chapter_prose
  { state with completed_chapter_prose := newList
               current_scene_index := state.current_scene_index + 1
               current_scene_prose := none }

/-- Contents of the input state's `completed_chapter_prose` list object after
`accumulate_scene_node` returns.  The source binds
`completed_prose = state.get("completed_chapter_prose") or []`, which aliases
the very list object stored in the input state whenever that list is non-empty
(`or []` only replaces a falsy value with a fresh list), and then calls
`completed_prose.append(current_prose)` on it — mutating the shared object; in
every other branch the input object is left untouched. -/
def accumulateInputProseAfter (state : GraphState) : List String :=
  match state.current_scene_prose with
  | some p =>
    if p ≠ "" ∧ state.completed_chapter_prose ≠ [] then
      state.completed_chapter_prose ++ [p]
    else state.completed_chapter_prose
  | none => state.completed_chapter_prose

/-- Embedding of `agents.save_chapter_output`: writes the prose list and the character states
to the persistence gateway (external file I/O, failures logged and swallowed)
and returns the state unchanged. -/
def save_chapter_output (state : GraphState) : GraphState :=
  state

/-- The scene-prose list `save_chapter_output` hands to the persistence gateway
(`json.dump(prose_list, ...)`). -/
def savedChapterProse (state : GraphState) : List String :=
  state.completed_chapter_prose

/-- Embedding of `agents.final_output_node`: prints the error or summary and returns the
state unchanged. -/
def final_output_node (state : GraphState) : GraphState :=
  state

-- ------------------------------------------------------------------
-- Graph wiring (`graph.py`)
-- ------------------------------------------------------------------

/-- Embedding of `graph.check_agent_error`: route to `finalOutput` iff `error` is truthy. -/
def check_agent_error (state : GraphState) : String :=
  if isTruthyStr state.error then "finalOutput" else "continue"

/-- Embedding of `graph.scene_loop_condition`: on a truthy error exit the loop to save;
otherwise continue with the next scene while the outline exists and the index is
in bounds, else save the chapter. -/
def scene_loop_condition (state : GraphState) : String :=
  if isTruthyStr state.error then "saveChapterOutput"
  else
    match state.chapter_scene_outline with
    | some outline =>
      if state.current_scene_index < outline.length then "prepareScene"
      else "saveChapterOutput"
    | none => "saveChapterOutput"

/-- The nodes of the compiled workflow (plus the `END` sentinel). -/
inductive Node where
  | userInput | worldBibleAgent | characterBibleAgent | overallPlotAgent
  | prepareChapter | chapterPlanner | prepareScene | sceneGenerator
  | consistencyChecker | characterStateUpdater | accumulateScene
  | saveChapterOutput | finalOutput | endNode
deriving DecidableEq, Repr

/-- One transition of the compiled graph: run the node's function, then follow
the edge `graph.py` registers for that node on the produced state. -/
def stepGraph (oc : Oracles) : Node → GraphState → Node × GraphState
  | .userInput, s => (.worldBibleAgent, get_user_input oc s)
  | .worldBibleAgent, s =>
    let s' := world_bible_agent_node oc.world s
    (if check_agent_error s' = "finalOutput" then .finalOutput else .characterBibleAgent, s')
  | .characterBibleAgent, s =>
    let s' := character_bible_agent_node oc.character s
    (if check_agent_error s' = "finalOutput" then .finalOutput else .overallPlotAgent, s')
  | .overallPlotAgent, s =>
    let s' := overall_plot_agent_node oc.plot s
    (if check_agent_error s' = "finalOutput" then .finalOutput else .prepareChapter, s')
  | .prepareChapter, s =>
    let s' := prepare_chapter_node s
    (if check_agent_error s' = "finalOutput" then .finalOutput else .chapterPlanner, s')
  | .chapterPlanner, s =>
    let s' := chapter_planner_agent_node oc.planner s
    let r := if isTruthyStr s'.error then "finalOutput" else scene_loop_condition s'
    (if r = "finalOutput" then .finalOutput
     else if r = "prepareScene" then .prepareScene else .saveChapterOutput, s')
  | .prepareScene, s =>
    let s' := prepare_scene_node s
    (if check_agent_error s' = "finalOutput" then .finalOutput else .sceneGenerator, s')
  | .sceneGenerator, s =>
    let s' := scene_generator_agent_node (oc.scene s.current_scene_index) s
    (if check_agent_error s' = "finalOutput" then .finalOutput else .consistencyChecker, s')
  | .consistencyChecker, s =>
    let s' := consistency_checker_agent_node s
    (if check_agent_error s' = "finalOutput" then .finalOutput else .characterStateUpdater, s')
  | .characterStateUpdater, s =>
    let s' := character_state_update_agent_node s
    (if check_agent_error s' = "finalOutput" then .finalOutput else .accumulateScene, s')
  | .accumulateScene, s =>
    let s' := accumulate_scene_node s
    (if scene_loop_condition s' = "prepareScene" then .prepareScene else .saveChapterOutput, s')
  | .saveChapterOutput, s =>
    let s' := save_chapter_output s
    (if check_agent_error s' = "finalOutput" then .finalOutput else .endNode, s')
  | .finalOutput, s => (.endNode, final_output_node s)
  | .endNode, s => (.endNode, s)

/-- The visited configurations of a fuel-bounded traversal, starting
configuration included; the trace stops at `endNode`. -/
def statesTrace (oc : Oracles) : Nat → Node → GraphState → List (Node × GraphState)
  | 0, n, s => [(n, s)]
  | Nat.succ fuel, n, s =>
    if n = Node.endNode then [(n, s)]
    else
      let ns := stepGraph oc n s
      (n, s) :: statesTrace oc fuel ns.1 ns.2

/-- The configuration a fuel-bounded traversal ends in. -/
def runGraph (oc : Oracles) : Nat → Node → GraphState → Node × GraphState
  | 0, n, s => (n, s)
  | Nat.succ fuel, n, s =>
    if n = Node.endNode then (n, s)
    else
      let ns := stepGraph oc n s
      runGraph oc fuel ns.1 ns.2

/-- Number of `accumulateScene` executions recorded in a trace. -/
def countAccum (tr : List (Node × GraphState)) : Nat :=
  (tr.filter (fun p => p.1 = Node.accumulateScene)).length

deriving instance DecidableEq for Except

-- ------------------------------------------------------------------
-- Concrete fixtures used by witnesses and counterexamples
-- ------------------------------------------------------------------

/-- An oracle set whose calls all fail; used where the oracles are irrelevant. -/
def ocTrivial : Oracles :=
  { inputWorld := "", inputChar := "", inputPremise := ""
    world := .fail "(stub)" none
    character := .fail "(stub)"
    plot := .invokeFail "(stub)"
    planner := .invokeFail "(stub)"
    scene := fun _ => .fail "(stub)" }

/-- A world-details value for concrete runs. -/
def wdFix : WorldDetails := { overall_tone := some "grim" }

/-- A character profile for concrete runs. -/
def cpFix : CharacterProfile :=
  { name := "A", description := "d", backstory := "b", core_motivation := "m" }

/-- A five-scene raw outline, every scene carrying a usable summary. -/
def fiveScenesFix : List RawSceneItem :=
  [{ scene_summary := some "s1" }, { scene_summary := some "s2" },
   { scene_summary := some "s3" }, { scene_summary := some "s4" },
   { scene_summary := some "s5" }]

/-- Oracles of a chapter run whose scene generator succeeds on scenes 1 and 2
and raises on scene 3. -/
def ocMidFail : Oracles :=
  { inputWorld := "w", inputChar := "c", inputPremise := "p"
    world := .fail "(unused)" none
    character := .fail "(unused)"
    plot := .invokeFail "(unused)"
    planner := .parsed fiveScenesFix "[...]"
    scene := fun i =>
      if i = 0 then .ok "p1" else if i = 1 then .ok "p2"
      else .fail "(ResourceExhausted): 429 quota exceeded" }

/-- Initial state of a chapter invocation as `main.py` builds it for Phase 2:
bible, profile and outline populated, cursors reset. -/
def sChapterFix : GraphState :=
  { user_world_concept := some "w", user_character_concept := some "c",
    user_story_premise := some "p",
    world_details := some wdFix, character_profile := some cpFix,
    overall_plot_outline := some [{ title := some "Ch1", summary := "c1 summary" }],
    current_chapter_index := 0,
    character_states := some [("A", [("mood", "neutral"), ("location", "Unknown")])] }

/-- A state in which the accumulate step runs with a non-empty input prose list. -/
def sAccumFix : GraphState :=
  { completed_chapter_prose := ["a"], current_scene_prose := some "b" }

/-- What claim C9's wording prescribes for a fears value, modelled from the
spec's words for comparison with the code's behaviour: "fears is the list
obtained by splitting the value on ';' and trimming each entry". -/
def fearsSplitTrimSpec (v : String) : List String :=
  (splitSemiS v).map trimS

/-- A profile text whose fears value has an empty segment between semicolons. -/
def fearsLinesFix : List String :=
  ["Name: A", "Description: B", "Backstory: C", "Motivation: D", "Fears: a;;b"]

/-- A state ready for the Overall Plot step: premise, world and profile present,
outline still empty. -/
def sPlotReady : GraphState :=
  { user_story_premise := some "p", world_details := some wdFix,
    character_profile := some cpFix }

/-- A state whose World Bible, Character Bible and Overall Plot outputs are all
already populated. -/
def sFullFix : GraphState :=
  { world_details := some wdFix, character_profile := some cpFix,
    overall_plot_outline := some [{ summary := "c1" }] }

/-- Scene item carrying only a title and plot points. -/
def itemPlotFix : SceneOutlineItem :=
  { title := some "Confrontation", plot_points := some ["A meets B", "B reveals secret"] }

/-- Scene item carrying a summary and plot points. -/
def itemSummaryFix : SceneOutlineItem :=
  { summary := some "X", plot_points := some ["A meets B", "B reveals secret"] }

-- ------------------------------------------------------------------
-- Helper lemmas
-- ------------------------------------------------------------------

lemma truthy_append (a b : String) (h : isTruthyStr (some a) = true) :
    isTruthyStr (some (a ++ b)) = true := by
  simp only [isTruthyStr, decide_eq_true_eq] at *
  cases a with
  | mk d =>
    cases d with
    | nil => exact absurd rfl h
    | cons c cs =>
      cases b with
      | mk e =>
        intro hc
        have hdata : c :: (cs ++ e) = ([] : List Char) := congrArg String.data hc
        exact List.noConfusion hdata

lemma statesTrace_endNode (oc : Oracles) (fuel : Nat) (s : GraphState) :
    statesTrace oc fuel .endNode s = [(.endNode, s)] := by
  cases fuel <;> simp [statesTrace]

lemma runGraph_endNode (oc : Oracles) (fuel : Nat) (s : GraphState) :
    runGraph oc fuel .endNode s = (.endNode, s) := by
  induction fuel with
  | zero => rfl
  | succ k ih => simp [runGraph]

/-- Nodes reachable once a chapter traversal has passed `prepareChapter`. -/
def inChapter : Node → Bool
  | .chapterPlanner | .prepareScene | .sceneGenerator | .consistencyChecker
  | .characterStateUpdater | .accumulateScene | .saveChapterOutput
  | .finalOutput | .endNode => true
  | _ => false

/-- In-chapter nodes that are only ever entered with truthy current prose. -/
def needsProse : Node → Bool
  | .consistencyChecker | .characterStateUpdater | .accumulateScene => true
  | _ => false

/-- The invariant carried along a chapter traversal: the accumulated prose list
is exactly as long as the scene index, and the three nodes following a
successful scene generation always see truthy prose. -/
def ChapterInv (n : Node) (s : GraphState) : Prop :=
  inChapter n = true ∧
  s.completed_chapter_prose.length = s.current_scene_index ∧
  (needsProse n = true → isTruthyStr s.current_scene_prose = true)

lemma planner_fields (oc : JsonListOutcome RawSceneItem) (s : GraphState) :
    (chapter_planner_agent_node oc s).completed_chapter_prose = s.completed_chapter_prose ∧
    (chapter_planner_agent_node oc s).current_scene_index = s.current_scene_index := by
  unfold chapter_planner_agent_node
  split
  · exact ⟨rfl, rfl⟩
  split
  · exact ⟨rfl, rfl⟩
  cases oc with
  | invokeFail e => exact ⟨rfl, rfl⟩
  | noArray raw => exact ⟨rfl, rfl⟩
  | badJson e raw => exact ⟨rfl, rfl⟩
  | parsed items raw =>
    dsimp only
    split
    · exact ⟨rfl, rfl⟩
    · exact ⟨rfl, rfl⟩

lemma prepare_scene_fields (s : GraphState) :
    (prepare_scene_node s).completed_chapter_prose = s.completed_chapter_prose ∧
    (prepare_scene_node s).current_scene_index = s.current_scene_index := by
  unfold prepare_scene_node
  cases s.chapter_scene_outline with
  | none => exact ⟨rfl, rfl⟩
  | some outline =>
    dsimp only
    cases outline.get? s.current_scene_index with
    | none => exact ⟨rfl, rfl⟩
    | some item =>
      dsimp only
      cases deriveSceneGoal item with
      | none => exact ⟨rfl, rfl⟩
      | some goal => exact ⟨rfl, rfl⟩

lemma scene_gen_fields (oc : SceneOutcome) (s : GraphState) :
    (scene_generator_agent_node oc s).completed_chapter_prose = s.completed_chapter_prose ∧
    (scene_generator_agent_node oc s).current_scene_index = s.current_scene_index := by
  unfold scene_generator_agent_node
  split
  · exact ⟨rfl, rfl⟩
  cases oc with
  | ok prose =>
    dsimp only
    split
    · exact ⟨rfl, rfl⟩
    · exact ⟨rfl, rfl⟩
  | fail e => exact ⟨rfl, rfl⟩

lemma scene_gen_prose_of_no_error (oc : SceneOutcome) (s : GraphState)
    (h : isTruthyStr (scene_generator_agent_node oc s).error = false) :
    isTruthyStr (scene_generator_agent_node oc s).current_scene_prose = true := by
  unfold scene_generator_agent_node at h ⊢
  split at h
  · exact absurd h (by simp [isTruthyStr])
  next hg =>
    rw [if_neg hg]
    cases oc with
    | ok prose =>
      dsimp only at h ⊢
      by_cases he : trimS prose = ""
      · rw [if_pos he] at h
        exact absurd h (by simp [isTruthyStr, sceneEmptyErrMsg])
      · rw [if_neg he]
        simpa [isTruthyStr] using he
    | fail e =>
      exfalso
      have h2 : isTruthyStr (some ("Scene Generator Agent Error " ++ e)) = false := h
      rw [truthy_append "Scene Generator Agent Error " e (by decide)] at h2
      exact Bool.noConfusion h2

lemma consistency_fields (s : GraphState) :
    (consistency_checker_agent_node s).completed_chapter_prose = s.completed_chapter_prose ∧
    (consistency_checker_agent_node s).current_scene_index = s.current_scene_index ∧
    (consistency_checker_agent_node s).current_scene_prose = s.current_scene_prose ∧
    (consistency_checker_agent_node s).error = s.error := by
  unfold consistency_checker_agent_node
  exact ⟨rfl, rfl, rfl, rfl⟩

lemma char_update_fields (s : GraphState) :
    (character_state_update_agent_node s).completed_chapter_prose = s.completed_chapter_prose ∧
    (character_state_update_agent_node s).current_scene_index = s.current_scene_index ∧
    (character_state_update_agent_node s).current_scene_prose = s.current_scene_prose := by
  unfold character_state_update_agent_node
  dsimp only
  split
  · exact ⟨rfl, rfl, rfl⟩
  · exact ⟨rfl, rfl, rfl⟩

lemma accumulate_len (s : GraphState)
    (hp : isTruthyStr s.current_scene_prose = true)
    (hlen : s.completed_chapter_prose.length = s.current_scene_index) :
    (accumulate_scene_node s).completed_chapter_prose.length
      = (accumulate_scene_node s).current_scene_index := by
  unfold accumulate_scene_node
  cases hpr : s.current_scene_prose with
  | none => rw [hpr] at hp; exact absurd hp (by simp [isTruthyStr])
  | some p =>
    rw [hpr] at hp
    simp only [isTruthyStr, decide_eq_true_eq] at hp
    simp [hpr, hp, hlen]

lemma accumulate_index (s : GraphState) :
    (accumulate_scene_node s).current_scene_index = s.current_scene_index + 1 := rfl

lemma check_continue {s : GraphState} (h : ¬ check_agent_error s = "finalOutput") :
    isTruthyStr s.error = false := by
  unfold check_agent_error at h
  cases hx : isTruthyStr s.error with
  | false => rfl
  | true => simp [hx] at h

lemma stepGraph_inv (oc : Oracles) (n : Node) (s : GraphState) (h : ChapterInv n s) :
    ChapterInv (stepGraph oc n s).1 (stepGraph oc n s).2 := by
  obtain ⟨hin, hlen, hpr⟩ := h
  cases n with
  | userInput => exact absurd hin (by decide)
  | worldBibleAgent => exact absurd hin (by decide)
  | characterBibleAgent => exact absurd hin (by decide)
  | overallPlotAgent => exact absurd hin (by decide)
  | prepareChapter => exact absurd hin (by decide)
  | chapterPlanner =>
    have hf := planner_fields oc.planner s
    dsimp only [stepGraph]
    repeat' split
    all_goals exact ⟨by rfl, by rw [hf.1, hf.2]; exact hlen, by simp [needsProse]⟩
  | prepareScene =>
    have hf := prepare_scene_fields s
    dsimp only [stepGraph]
    split
    · exact ⟨rfl, by rw [hf.1, hf.2]; exact hlen, by simp [needsProse]⟩
    · exact ⟨rfl, by rw [hf.1, hf.2]; exact hlen, by simp [needsProse]⟩
  | sceneGenerator =>
    have hf := scene_gen_fields (oc.scene s.current_scene_index) s
    dsimp only [stepGraph]
    split
    · exact ⟨rfl, by rw [hf.1, hf.2]; exact hlen, by simp [needsProse]⟩
    next hroute =>
      refine ⟨rfl, by rw [hf.1, hf.2]; exact hlen, ?_⟩
      intro _
      exact scene_gen_prose_of_no_error _ s (check_continue hroute)
  | consistencyChecker =>
    have hf := consistency_fields s
    dsimp only [stepGraph]
    split
    · exact ⟨rfl, by rw [hf.1, hf.2.1]; exact hlen, by simp [needsProse]⟩
    · refine ⟨rfl, by rw [hf.1, hf.2.1]; exact hlen, ?_⟩
      intro _
      rw [hf.2.2.1]
      exact hpr rfl
  | characterStateUpdater =>
    have hf := char_update_fields s
    dsimp only [stepGraph]
    split
    · exact ⟨rfl, by rw [hf.1, hf.2.1]; exact hlen, by simp [needsProse]⟩
    · refine ⟨rfl, by rw [hf.1, hf.2.1]; exact hlen, ?_⟩
      intro _
      rw [hf.2.2]
      exact hpr rfl
  | accumulateScene =>
    have hl := accumulate_len s (hpr rfl) hlen
    dsimp only [stepGraph]
    split
    · exact ⟨rfl, hl, by simp [needsProse]⟩
    · exact ⟨rfl, hl, by simp [needsProse]⟩
  | saveChapterOutput =>
    dsimp only [stepGraph, save_chapter_output]
    split
    · exact ⟨rfl, hlen, by simp [needsProse]⟩
    · exact ⟨rfl, hlen, by simp [needsProse]⟩
  | finalOutput => exact ⟨rfl, hlen, by simp [stepGraph, final_output_node, needsProse]⟩
  | endNode => exact ⟨rfl, hlen, by simp [stepGraph, needsProse]⟩

lemma stepGraph_index (oc : Oracles) (n : Node) (s : GraphState)
    (hin : inChapter n = true) :
    (stepGraph oc n s).2.current_scene_index
      = s.current_scene_index + (if n = Node.accumulateScene then 1 else 0) := by
  cases n with
  | userInput => exact absurd hin (by decide)
  | worldBibleAgent => exact absurd hin (by decide)
  | characterBibleAgent => exact absurd hin (by decide)
  | overallPlotAgent => exact absurd hin (by decide)
  | prepareChapter => exact absurd hin (by decide)
  | chapterPlanner =>
    show (chapter_planner_agent_node oc.planner s).current_scene_index = _
    rw [(planner_fields oc.planner s).2]
    simp
  | prepareScene =>
    show (prepare_scene_node s).current_scene_index = _
    rw [(prepare_scene_fields s).2]
    simp
  | sceneGenerator =>
    show (scene_generator_agent_node (oc.scene s.current_scene_index) s).current_scene_index = _
    rw [(scene_gen_fields _ s).2]
    simp
  | consistencyChecker =>
    show (consistency_checker_agent_node s).current_scene_index = _
    rw [(consistency_fields s).2.1]
    simp
  | characterStateUpdater =>
    show (character_state_update_agent_node s).current_scene_index = _
    rw [(char_update_fields s).2.1]
    simp
  | accumulateScene =>
    show (accumulate_scene_node s).current_scene_index = _
    rw [accumulate_index]
    simp
  | saveChapterOutput => simp [stepGraph, save_chapter_output]
  | finalOutput => simp [stepGraph, final_output_node]
  | endNode => simp [stepGraph]

lemma countAccum_cons (p : Node × GraphState) (l : List (Node × GraphState)) :
    countAccum (p :: l) = (if p.1 = Node.accumulateScene then 1 else 0) + countAccum l := by
  unfold countAccum
  by_cases hp : p.1 = Node.accumulateScene
  · simp [List.filter_cons, hp, Nat.add_comm]
  · simp [List.filter_cons, hp]

lemma trace_inv_count (oc : Oracles) :
    ∀ (fuel : Nat) (n : Node) (s : GraphState), ChapterInv n s →
      ∀ (i : Nat) (p : Node × GraphState),
        (statesTrace oc fuel n s).get? i = some p →
        p.2.completed_chapter_prose.length = p.2.current_scene_index ∧
        p.2.current_scene_index
          = s.current_scene_index + countAccum ((statesTrace oc fuel n s).take i) := by
  intro fuel
  induction fuel with
  | zero =>
    intro n s h i p hp
    cases i with
    | zero =>
      simp only [statesTrace, List.get?] at hp
      cases hp
      exact ⟨h.2.1, by simp [countAccum]⟩
    | succ j => simp [statesTrace, List.get?] at hp
  | succ fuel ih =>
    intro n s h i p hp
    by_cases hend : n = Node.endNode
    · subst hend
      rw [show statesTrace oc (fuel + 1) Node.endNode s = [(Node.endNode, s)] from by
            simp [statesTrace]] at hp ⊢
      cases i with
      | zero =>
        simp only [List.get?] at hp
        cases hp
        exact ⟨h.2.1, by simp [countAccum]⟩
      | succ j => simp [List.get?] at hp
    · rw [show statesTrace oc (fuel + 1) n s
            = (n, s) :: statesTrace oc fuel (stepGraph oc n s).1 (stepGraph oc n s).2 from by
            simp [statesTrace, hend]] at hp ⊢
      cases i with
      | zero =>
        simp only [List.get?] at hp
        cases hp
        exact ⟨h.2.1, by simp [countAccum]⟩
      | succ j =>
        simp only [List.get?] at hp
        have hinv' := stepGraph_inv oc n s h
        obtain ⟨e1, e2⟩ := ih (stepGraph oc n s).1 (stepGraph oc n s).2 hinv' j p hp
        refine ⟨e1, ?_⟩
        rw [List.take_succ_cons, countAccum_cons, e2, stepGraph_index oc n s h.1]
        by_cases ha : n = Node.accumulateScene
        · simp only [ha, if_pos]
          omega
        · simp only [ha, if_neg, ite_false]
          omega

lemma prepareChapterErrMsg_truthy (idx : Nat) :
    isTruthyStr (some (prepareChapterErrMsg idx)) = true := by
  unfold prepareChapterErrMsg
  exact truthy_append _ _
    (truthy_append "Cannot prepare chapter: Invalid index (" (toString idx) (by decide))

lemma prepare_chapter_fail (s : GraphState) (h : prepare_chapter_guard s = none) :
    prepare_chapter_node s
      = { s with error := some (prepareChapterErrMsg s.current_chapter_index) } := by
  unfold prepare_chapter_node
  rw [h]

lemma prepare_chapter_ok (s : GraphState) (item : ChapterOutlineItem)
    (h : prepare_chapter_guard s = some item) :
    prepare_chapter_node s =
      { s with current_chapter_summary := some item.summary
               chapter_scene_outline := none
               current_scene_index := 0
               current_scene_goal := none
               current_scene_prose := none
               completed_chapter_prose := []
               consistency_notes := none
               error := none } := by
  unfold prepare_chapter_node
  rw [h]

lemma prepare_chapter_success (s : GraphState)
    (h : isTruthyStr (prepare_chapter_node s).error = false) :
    (prepare_chapter_node s).current_scene_index = 0 ∧
    (prepare_chapter_node s).completed_chapter_prose = [] := by
  cases hg : prepare_chapter_guard s with
  | none =>
    rw [prepare_chapter_fail s hg] at h
    have h2 : isTruthyStr (some (prepareChapterErrMsg s.current_chapter_index)) = false := h
    rw [prepareChapterErrMsg_truthy] at h2
    exact Bool.noConfusion h2
  | some item =>
    rw [prepare_chapter_ok s item hg]
    exact ⟨rfl, rfl⟩

-- ------------------------------------------------------------------
-- Claim theorems
-- ------------------------------------------------------------------

/-- C1: the claim says a Scene Generator error on scene k still reaches
`SaveChapterOutput`, persisting the k-1 accumulated scenes.  The code instead
routes the error through `check_agent_error` straight to `finalOutput`: in the
concrete chapter run below the scene generator fails on scene 3 of 5, the
traversal visits `finalOutput` directly after the third `sceneGenerator`,
`saveChapterOutput` is never executed, and the 2 accumulated scenes are left
unpersisted in the final state (the salvage branch of `scene_loop_condition` is
unreachable from a scene-generator error). -/
theorem sceneGeneratorError_routes_to_finalOutput_not_save :
    (statesTrace ocMidFail 40 Node.userInput sChapterFix).map Prod.fst =
      [.userInput, .worldBibleAgent, .characterBibleAgent, .overallPlotAgent,
       .prepareChapter, .chapterPlanner,
       .prepareScene, .sceneGenerator, .consistencyChecker, .characterStateUpdater,
       .accumulateScene,
       .prepareScene, .sceneGenerator, .consistencyChecker, .characterStateUpdater,
       .accumulateScene,
       .prepareScene, .sceneGenerator, .finalOutput, .endNode] ∧
    Node.saveChapterOutput ∉ (statesTrace ocMidFail 40 Node.userInput sChapterFix).map Prod.fst ∧
    (runGraph ocMidFail 40 Node.userInput sChapterFix).1 = Node.endNode ∧
    (runGraph ocMidFail 40 Node.userInput sChapterFix).2.completed_chapter_prose = ["p1", "p2"] ∧
    isTruthyStr (runGraph ocMidFail 40 Node.userInput sChapterFix).2.error = true := by
  refine ⟨by decide, by decide, by decide, by decide, by decide⟩

/-- C2: within one chapter's traversal — any oracles, any fuel — every
configuration reached from a successful `prepareChapter` satisfies
`len(completed_chapter_prose) = current_scene_index`, and the scene index (hence
also the list length) equals the number of `accumulateScene` executions since
the chapter reset. -/
theorem scene_accumulation_invariant (oc : Oracles) (fuel : Nat) (s0 : GraphState)
    (h : isTruthyStr (prepare_chapter_node s0).error = false) :
    ∀ (i : Nat) (p : Node × GraphState),
      (statesTrace oc fuel Node.chapterPlanner (prepare_chapter_node s0)).get? i = some p →
      p.2.completed_chapter_prose.length = p.2.current_scene_index ∧
      p.2.current_scene_index
        = countAccum ((statesTrace oc fuel Node.chapterPlanner (prepare_chapter_node s0)).take i) := by
  intro i p hp
  have hs := prepare_chapter_success s0 h
  have hinv : ChapterInv Node.chapterPlanner (prepare_chapter_node s0) :=
    ⟨rfl, by rw [hs.1, hs.2]; rfl, by simp [needsProse]⟩
  have hres := trace_inv_count oc fuel Node.chapterPlanner (prepare_chapter_node s0) hinv i p hp
  rw [hs.1] at hres
  simpa using hres

/-- Witness for C2 at a concrete chapter start. -/
theorem scene_accumulation_invariant_witness :
    ((Node.chapterPlanner, prepare_chapter_node sChapterFix) : Node × GraphState).2.completed_chapter_prose.length
        = (Node.chapterPlanner, prepare_chapter_node sChapterFix).2.current_scene_index ∧
    ((Node.chapterPlanner, prepare_chapter_node sChapterFix) : Node × GraphState).2.current_scene_index
        = countAccum ((statesTrace ocTrivial 3 Node.chapterPlanner (prepare_chapter_node sChapterFix)).take 0) :=
  scene_accumulation_invariant ocTrivial 3 sChapterFix (by decide) 0
    (Node.chapterPlanner, prepare_chapter_node sChapterFix) (by decide)

/-- C8: when `prepareChapter` fails (outline missing, chapter index out of
range, or the indexed item's summary empty), the returned state differs from
the input only in the `error` field, which is set to the prepare-chapter
message; on success it stores the chapter summary, resets the scene cursor and
prose list, clears the scene-outline/goal/prose fields, the consistency notes
and the error. -/
theorem prepare_chapter_contract (s : GraphState) :
    ((s.overall_plot_outline = none ∨
      (∃ outline, s.overall_plot_outline = some outline ∧
        (outline.get? s.current_chapter_index = none ∨
         ∃ item, outline.get? s.current_chapter_index = some item ∧ item.summary = ""))) →
      prepare_chapter_node s
        = { s with error := some (prepareChapterErrMsg s.current_chapter_index) }) ∧
    (∀ outline item, s.overall_plot_outline = some outline →
      outline.get? s.current_chapter_index = some item → item.summary ≠ "" →
      prepare_chapter_node s =
        { s with current_chapter_summary := some item.summary
                 chapter_scene_outline := none
                 current_scene_index := 0
                 current_scene_goal := none
                 current_scene_prose := none
                 completed_chapter_prose := []
                 consistency_notes := none
                 error := none }) := by
  constructor
  · intro hfail
    apply prepare_chapter_fail
    unfold prepare_chapter_guard
    rcases hfail with ho | ⟨outline, ho, hrest⟩
    · rw [ho]
    · rw [ho]
      show (match outline.get? s.current_chapter_index with
            | none => none
            | some item => if item.summary = "" then none else some item) = none
      rcases hrest with hg | ⟨item, hg, hs⟩
      · rw [hg]
      · rw [hg]
        simp [hs]
  · intro outline item ho hg hs
    have : prepare_chapter_guard s = some item := by
      unfold prepare_chapter_guard
      rw [ho]
      show (match outline.get? s.current_chapter_index with
            | none => none
            | some item => if item.summary = "" then none else some item) = some item
      rw [hg]
      simp [hs]
    exact prepare_chapter_ok s item this

/-- Witness for C8: a failing input (no outline) and a succeeding input. -/
theorem prepare_chapter_contract_witness :
    (prepare_chapter_node { current_chapter_index := 2 }
        = { ({ current_chapter_index := 2 } : GraphState) with
              error := some (prepareChapterErrMsg 2) }) ∧
    (prepare_chapter_node sChapterFix =
      { sChapterFix with current_chapter_summary := some "c1 summary"
                         chapter_scene_outline := none
                         current_scene_index := 0
                         current_scene_goal := none
                         current_scene_prose := none
                         completed_chapter_prose := []
                         consistency_notes := none
                         error := none }) :=
  ⟨(prepare_chapter_contract { current_chapter_index := 2 }).1 (Or.inl rfl),
   (prepare_chapter_contract sChapterFix).2 [{ title := some "Ch1", summary := "c1 summary" }]
     { title := some "Ch1", summary := "c1 summary" } rfl rfl (by decide)⟩

/-- C3: scene-goal derivation precedence — title-prefixed plot points when the
summary is absent; the summary wins when present; title alone and setting alone
as later fallbacks — checked both on the derivation chain and through
`prepare_scene_node`. -/
theorem scene_goal_precedence :
    deriveSceneGoal { title := some "Confrontation",
                      plot_points := some ["A meets B", "B reveals secret"] }
      = some "Confrontation: A meets B B reveals secret" ∧
    deriveSceneGoal { summary := some "X",
                      plot_points := some ["A meets B", "B reveals secret"] } = some "X" ∧
    deriveSceneGoal { title := some "T" } = some "T" ∧
    deriveSceneGoal { scene_setting := some "S" } = some "Scene set in: S" ∧
    (prepare_scene_node
        { chapter_scene_outline := some [itemPlotFix] }).current_scene_goal
      = some "Confrontation: A meets B B reveals secret" ∧
    (prepare_scene_node
        { chapter_scene_outline := some [itemSummaryFix] }).current_scene_goal
      = some "X" :=
  ⟨by decide, by decide, by decide, by decide, by decide, by decide⟩

/-- C7: a chapter item carrying only `plot_points = ["p1", "p2"]` normalizes to
a single validated item whose summary is exactly `"p1 p2"`, both at the
normalization layer and through the Overall Plot step. -/
theorem chapter_outline_plot_points_repair :
    normalizeChapterOutline [{ plot_points := some ["p1", "p2"] }]
      = .ok [{ title := none, summary := "p1 p2" }] ∧
    (overall_plot_agent_node (.parsed [{ plot_points := some ["p1", "p2"] }] "[...]")
        sPlotReady).overall_plot_outline
      = some [{ title := none, summary := "p1 p2" }] ∧
    isTruthyStr (overall_plot_agent_node
        (.parsed [{ plot_points := some ["p1", "p2"] }] "[...]") sPlotReady).error = false :=
  ⟨by decide, by decide, by decide⟩

/-- C5: the World Bible, Character Bible and Overall Plot steps are no-ops when
their output field is already non-null, whatever the external calls would have
returned. -/
theorem idempotent_skip (ow : WorldOutcome) (otc : TextOutcome)
    (op : JsonListOutcome RawChapterItem) (s : GraphState) :
    (s.world_details.isSome = true → world_bible_agent_node ow s = s) ∧
    (s.character_profile.isSome = true → character_bible_agent_node otc s = s) ∧
    (s.overall_plot_outline.isSome = true → overall_plot_agent_node op s = s) := by
  refine ⟨fun h => ?_, fun h => ?_, fun h => ?_⟩
  · unfold world_bible_agent_node
    rw [if_pos h]
  · unfold character_bible_agent_node
    rw [if_pos h]
  · unfold overall_plot_agent_node
    rw [if_pos h]

/-- Witness for C5 on a fully populated state. -/
theorem idempotent_skip_witness :
    world_bible_agent_node (.fail "(stub)" none) sFullFix = sFullFix ∧
    character_bible_agent_node (.fail "(stub)") sFullFix = sFullFix ∧
    overall_plot_agent_node (.invokeFail "(stub)") sFullFix = sFullFix :=
  ⟨(idempotent_skip (.fail "(stub)" none) (.fail "(stub)") (.invokeFail "(stub)") sFullFix).1
      (by decide),
   (idempotent_skip (.fail "(stub)" none) (.fail "(stub)") (.invokeFail "(stub)") sFullFix).2.1
      (by decide),
   (idempotent_skip (.fail "(stub)" none) (.fail "(stub)") (.invokeFail "(stub)") sFullFix).2.2
      (by decide)⟩

/-- C4 counterexample: `accumulate_scene_node` is not pure with respect to its
input — on a state holding one accumulated scene and a pending prose string, the
source's `completed_prose.append(...)` mutates the very list object stored in
the input state (modelled by `accumulateInputProseAfter`), so the input's list
value after the call differs from its value before. -/
theorem accumulate_mutates_input_list :
    accumulateInputProseAfter sAccumFix = ["a", "b"] ∧
    sAccumFix.completed_chapter_prose = ["a"] ∧
    accumulateInputProseAfter sAccumFix ≠ sAccumFix.completed_chapter_prose :=
  ⟨by decide, by decide, by decide⟩

/-- C4 amended: steps return the next state rather than reassigning the input
dict, and the character-state updater hands back an equal mapping value; but
`accumulate_scene_node` mutates the input state's `completed_chapter_prose`
list in place exactly when the current scene prose is truthy and the
accumulated list is non-empty. -/
theorem step_purity_amended (s : GraphState) :
    (accumulateInputProseAfter s ≠ s.completed_chapter_prose ↔
      (isTruthyStr s.current_scene_prose = true ∧ s.completed_chapter_prose ≠ [])) ∧
    (character_state_update_agent_node s).character_states = s.character_states := by
  constructor
  · cases hp : s.current_scene_prose with
    | none => simp [accumulateInputProseAfter, hp, isTruthyStr]
    | some p =>
      by_cases he : p = ""
      · simp [accumulateInputProseAfter, hp, he, isTruthyStr]
      · by_cases hl : s.completed_chapter_prose = []
        · simp [accumulateInputProseAfter, hp, he, hl, isTruthyStr]
        · simp [accumulateInputProseAfter, hp, he, hl, isTruthyStr]
  · unfold character_state_update_agent_node
    dsimp only
    split
    · rfl
    next hcond =>
      cases hcs : s.character_states with
      | none => exact absurd (by rw [hcs]; simp [List.isEmpty]) hcond
      | some m => simp [hcs]

/-- C9 counterexample: for the Fears value `"a;;b"` the claim's rule — split on
`;` and trim each entry — prescribes `["a", "", "b"]`, but the code's list
comprehension also drops entries that strip to the empty string, producing
`["a", "b"]`. -/
theorem fears_split_drops_empty_entries :
    parseCharacterProfile fearsLinesFix
      = some { name := "A", description := "B", backstory := "C",
               core_motivation := "D", fears := some ["a", "b"] } ∧
    findLabel fearsLinesFix "Fears" = some "a;;b" ∧
    fearsSplitTrimSpec "a;;b" = ["a", "", "b"] ∧
    (["a", "b"] : List String) ≠ fearsSplitTrimSpec "a;;b" :=
  ⟨by decide, by decide, by decide, by decide⟩

/-- C9 amended: with the four required labels present, a missing `Fears:` line
parses successfully with null fears; a fears value equal to `none` in any
letter case likewise yields null fears; otherwise fears is the list obtained by
splitting the value on `;`, trimming each entry, and dropping entries that are
empty after trimming. -/
theorem fears_parsing_tolerance (lines : List String) (n d b m : String)
    (hn : findLabel lines "Name" = some n)
    (hd : findLabel lines "Description" = some d)
    (hb : findLabel lines "Backstory" = some b)
    (hm : findLabel lines "Motivation" = some m) :
    (findLabel lines "Fears" = none →
      parseCharacterProfile lines
        = some { name := n, description := d, backstory := b,
                 core_motivation := m, fears := none }) ∧
    (∀ v, findLabel lines "Fears" = some v →
      (lowerS v = "none" →
        parseCharacterProfile lines
          = some { name := n, description := d, backstory := b,
                   core_motivation := m, fears := none }) ∧
      (lowerS v ≠ "none" →
        parseCharacterProfile lines
          = some { name := n, description := d, backstory := b,
                   core_motivation := m,
                   fears := some ((fearsSplitTrimSpec v).filter (fun e => e ≠ "")) })) := by
  unfold parseCharacterProfile
  rw [hn, hd, hb, hm]
  refine ⟨fun hf => ?_, fun v hf => ⟨fun hnone => ?_, fun hnn => ?_⟩⟩
  · simp [parseProfileFears, hf]
  · simp [parseProfileFears, hf, parseFearsValue, hnone]
  · simp [parseProfileFears, hf, parseFearsValue, hnn, fearsSplitTrimSpec]

/-- Witness for C9 (amended) on a profile text with no Fears line. -/
theorem fears_parsing_tolerance_witness :
    parseCharacterProfile ["Name: A", "Description: B", "Backstory: C", "Motivation: D"]
      = some { name := "A", description := "B", backstory := "C",
               core_motivation := "D", fears := none } :=
  (fears_parsing_tolerance ["Name: A", "Description: B", "Backstory: C", "Motivation: D"]
      "A" "B" "C" "D" (by decide) (by decide) (by decide) (by decide)).1 (by decide)

lemma validateChapterItems_none {items : List RawChapterItem} {x : RawChapterItem}
    (hx : x ∈ items) (hfail : validateChapterItem x = none) :
    validateChapterItems items = none := by
  induction items with
  | nil => cases hx
  | cons a l ih =>
    rcases List.mem_cons.mp hx with rfl | hmem
    · simp [validateChapterItems, hfail]
    · have := ih hmem
      unfold validateChapterItems
      rw [this]
      cases validateChapterItem a <;> rfl

/-- C10: a raw chapter item whose summary text sits only under the extra key
`summary` — no `description` key, no `plot_points` list — fails pydantic
validation (the required `summary` field is populated only through its alias
`description`), and the Overall Plot step consequently sets `error` and clears
the outline for the whole batch. -/
theorem summary_key_only_fails_validation (t : Option String) (sv : String)
    (items : List RawChapterItem) (raw : String) (s : GraphState)
    (hmem : ({ title := t, description := none, summary := some sv,
               plot_points := none } : RawChapterItem) ∈ items)
    (ho : s.overall_plot_outline = none)
    (hp : isTruthyStr s.user_story_premise = true)
    (hw : s.world_details.isSome = true)
    (hc : s.character_profile.isSome = true) :
    validateChapterItem (preprocessChapterItem
        { title := t, description := none, summary := some sv, plot_points := none }) = none ∧
    isTruthyStr (overall_plot_agent_node (.parsed items raw) s).error = true ∧
    (overall_plot_agent_node (.parsed items raw) s).overall_plot_outline = none := by
  have hitem : validateChapterItem (preprocessChapterItem
      { title := t, description := none, summary := some sv, plot_points := none }) = none := rfl
  have hval : validateChapterItems (items.map preprocessChapterItem) = none :=
    validateChapterItems_none (List.mem_map_of_mem preprocessChapterItem hmem) hitem
  have hnorm : normalizeChapterOutline items
      = .error "Overall Plot Agent Error (ValidationError): Failed to extract/parse/validate List[ChapterOutlineItem]." := by
    unfold normalizeChapterOutline
    rw [hval]
  obtain ⟨w, hwv⟩ := Option.isSome_iff_exists.mp hw
  obtain ⟨c, hcv⟩ := Option.isSome_iff_exists.mp hc
  refine ⟨hitem, ?_, ?_⟩
  · unfold overall_plot_agent_node
    rw [ho, hwv, hcv, hp]
    rw [if_neg (by simp)]
    rw [if_neg (by simp)]
    dsimp only
    rw [hnorm]
    show isTruthyStr (some "Overall Plot Agent Error (ValidationError): Failed to extract/parse/validate List[ChapterOutlineItem].") = true
    decide
  · unfold overall_plot_agent_node
    rw [ho, hwv, hcv, hp]
    rw [if_neg (by simp)]
    rw [if_neg (by simp)]
    dsimp only
    rw [hnorm]

/-- Witness for C10 on a one-item batch with only a `summary` key. -/
theorem summary_key_only_fails_validation_witness :
    validateChapterItem (preprocessChapterItem
        { title := none, description := none, summary := some "X",
          plot_points := none }) = none ∧
    isTruthyStr (overall_plot_agent_node
        (.parsed [{ title := none, description := none, summary := some "X",
                    plot_points := none }] "raw") sPlotReady).error = true ∧
    (overall_plot_agent_node
        (.parsed [{ title := none, description := none, summary := some "X",
                    plot_points := none }] "raw") sPlotReady).overall_plot_outline = none :=
  summary_key_only_fails_validation none "X"
    [{ title := none, description := none, summary := some "X", plot_points := none }]
    "raw" sPlotReady (by decide) rfl (by decide) (by decide) (by decide)

lemma world_bible_keeps (oc : WorldOutcome) (s : GraphState) :
    (world_bible_agent_node oc s).character_profile = s.character_profile ∧
    (world_bible_agent_node oc s).overall_plot_outline = s.overall_plot_outline := by
  unfold world_bible_agent_node
  split
  · exact ⟨rfl, rfl⟩
  split
  · exact ⟨rfl, rfl⟩
  cases oc with
  | ok wd => exact ⟨rfl, rfl⟩
  | fail e raw => exact ⟨rfl, rfl⟩

lemma statesTrace_cons (oc : Oracles) (fuel : Nat) (n : Node) (s : GraphState)
    (h : ¬ n = Node.endNode) :
    statesTrace oc (fuel + 1) n s
      = (n, s) :: statesTrace oc fuel (stepGraph oc n s).1 (stepGraph oc n s).2 := by
  simp [statesTrace, h]

lemma runGraph_step (oc : Oracles) (fuel : Nat) (n : Node) (s : GraphState)
    (h : ¬ n = Node.endNode) :
    runGraph oc (fuel + 1) n s
      = runGraph oc fuel (stepGraph oc n s).1 (stepGraph oc n s).2 := by
  simp [runGraph, h]

/-- C6: whenever the World Bible step comes out of a run start with a truthy
error, the traversal goes `userInput → worldBibleAgent → finalOutput → END`
with no other node executed, and the final reported state carries no character
profile and no plot outline.  The disjunctive hypothesis covers the initial
states the callers build: a fresh run (profile and outline absent) or a
chapter run (bible populated and error cleared, in which case the step skips
and never errors). -/
theorem world_bible_error_short_circuits (oc : Oracles) (fuel : Nat) (s : GraphState)
    (hfuel : 3 ≤ fuel)
    (hshape : (s.character_profile = none ∧ s.overall_plot_outline = none) ∨
              (s.world_details.isSome = true ∧ isTruthyStr s.error = false))
    (herr : isTruthyStr (world_bible_agent_node oc.world (get_user_input oc s)).error = true) :
    (statesTrace oc fuel Node.userInput s).map Prod.fst
        = [Node.userInput, Node.worldBibleAgent, Node.finalOutput, Node.endNode] ∧
    (runGraph oc fuel Node.userInput s).1 = Node.endNode ∧
    (runGraph oc fuel Node.userInput s).2.character_profile = none ∧
    (runGraph oc fuel Node.userInput s).2.overall_plot_outline = none := by
  have hclean : (get_user_input oc s).character_profile = none ∧
      (get_user_input oc s).overall_plot_outline = none := by
    by_cases hskip : (isTruthyStr s.user_world_concept
        && isTruthyStr s.user_character_concept
        && isTruthyStr s.user_story_premise) = true
    · have hs1eq : get_user_input oc s = s := by
        unfold get_user_input
        rw [if_pos hskip]
      rcases hshape with ⟨h1, h2⟩ | ⟨hw, he⟩
      · rw [hs1eq]
        exact ⟨h1, h2⟩
      · exfalso
        have hskip2 : world_bible_agent_node oc.world (get_user_input oc s)
            = get_user_input oc s := by
          unfold world_bible_agent_node
          rw [if_pos (by rw [hs1eq]; exact hw)]
        rw [hskip2, hs1eq, he] at herr
        exact Bool.noConfusion herr
    · have hs1eq : (get_user_input oc s).character_profile = none ∧
          (get_user_input oc s).overall_plot_outline = none := by
        unfold get_user_input
        rw [if_neg hskip]
        exact ⟨rfl, rfl⟩
      exact hs1eq
  have hkeep := world_bible_keeps oc.world (get_user_input oc s)
  have hroute : check_agent_error (world_bible_agent_node oc.world (get_user_input oc s))
      = "finalOutput" := by
    unfold check_agent_error
    rw [if_pos herr]
  have hstep0 : stepGraph oc Node.userInput s = (Node.worldBibleAgent, get_user_input oc s) := rfl
  have hstep1 : stepGraph oc Node.worldBibleAgent (get_user_input oc s)
      = (Node.finalOutput, world_bible_agent_node oc.world (get_user_input oc s)) := by
    dsimp only [stepGraph]
    rw [hroute]
    rw [if_pos rfl]
  have hstep2 : stepGraph oc Node.finalOutput
      (world_bible_agent_node oc.world (get_user_input oc s))
      = (Node.endNode, world_bible_agent_node oc.world (get_user_input oc s)) := rfl
  obtain ⟨k, hk⟩ := Nat.exists_eq_add_of_le hfuel
  have hk' : fuel = (k + 2) + 1 := by omega
  rw [hk']
  rw [statesTrace_cons oc (k + 2) Node.userInput s (by decide)]
  rw [runGraph_step oc (k + 2) Node.userInput s (by decide)]
  rw [hstep0]
  dsimp only
  rw [show k + 2 = (k + 1) + 1 from rfl]
  rw [statesTrace_cons oc (k + 1) Node.worldBibleAgent (get_user_input oc s) (by decide)]
  rw [runGraph_step oc (k + 1) Node.worldBibleAgent (get_user_input oc s) (by decide)]
  rw [hstep1]
  dsimp only
  rw [statesTrace_cons oc k Node.finalOutput
        (world_bible_agent_node oc.world (get_user_input oc s)) (by decide)]
  rw [runGraph_step oc k Node.finalOutput
        (world_bible_agent_node oc.world (get_user_input oc s)) (by decide)]
  rw [hstep2]
  dsimp only
  rw [statesTrace_endNode, runGraph_endNode]
  refine ⟨rfl, rfl, ?_, ?_⟩
  · rw [hkeep.1]
    exact hclean.1
  · rw [hkeep.2]
    exact hclean.2

/-- Witness for C6: an empty initial state whose fresh input leaves the world
concept blank, so the World Bible step records the missing-concept error. -/
theorem world_bible_error_short_circuits_witness :
    (statesTrace ocTrivial 10 Node.userInput {}).map Prod.fst
        = [Node.userInput, Node.worldBibleAgent, Node.finalOutput, Node.endNode] ∧
    (runGraph ocTrivial 10 Node.userInput {}).1 = Node.endNode ∧
    (runGraph ocTrivial 10 Node.userInput {}).2.character_profile = none ∧
    (runGraph ocTrivial 10 Node.userInput {}).2.overall_plot_outline = none :=
  world_bible_error_short_circuits ocTrivial 10 {} (by omega)
    (Or.inl ⟨rfl, rfl⟩) (by decide)
